import Mathlib

/-!
Verification of the ffmpeg-simple-merge service against its specification.

The Python sources under src/ are shallowly embedded: pure command and
filter-graph construction becomes Lean functions on `String`, `ℚ` and `ℤ`;
Python float values are modelled as rationals and the decimal rendering
performed by f-strings is abstracted by an explicit `fmt : ℚ → String`
parameter; the dynamically typed request dictionaries are modelled by the
`JVal` type (ordered association lists, as Python dictionaries preserve
insertion order); the effectful codec-engine invocation of
`execute_ffmpeg_pipeline` is modelled by an explicit outcome value and a
file-system state for the declared output path.  Every definition is
transcribed from the Python function named in its doc comment; the single
spec-side definition, `pipelineContract`, is named as such.

Layout: all definitions first, then all theorems.
-/

set_option maxRecDepth 8000

/-- Truncation toward zero, the behaviour of Python's `int()` on a float. -/
def ratTrunc (q : ℚ) : ℤ := if 0 ≤ q then ⌊q⌋ else ⌈q⌉

/-- A concrete rendering of rationals, usable to instantiate the abstract
`fmt` parameters at concrete inputs. -/
def ratStr (q : ℚ) : String := toString q

/-- Embedding of `_build_merge_command` (src/merge.py, lines 109-156).
Durations and volumes are rationals; the decimal rendering Python performs
inside the f-strings is abstracted by `fmt`. -/
def buildMergeCommand (fmt : ℚ → String) (videoPath audioPath outputPath : String)
    (videoDuration audioDuration videoVolume audioVolume : ℚ) : List String :=
  if audioDuration ≥ videoDuration then
    let speedFactor := videoDuration / audioDuration
    ["ffmpeg", "-y",
     "-hwaccel", "cuda",
     "-hwaccel_output_format", "cuda",
     "-i", videoPath,
     "-i", audioPath,
     "-c:v", "h264_nvenc",
     "-preset", "p1",
     "-cq", "28",
     "-c:a", "aac",
     "-b:a", "128k",
     "-filter_complex",
     "[0:v]setpts=PTS*" ++ fmt (1 / speedFactor) ++ "[slowvideo];"
       ++ "[0:a]atempo=" ++ fmt speedFactor ++ ",volume=" ++ fmt videoVolume ++ "[slowaudio];"
       ++ "[1:a]volume=" ++ fmt audioVolume ++ "[newaudio];"
       ++ "[slowaudio][newaudio]amix=inputs=2:duration=longest:weights=0.5 0.5[mixedaudio]",
     "-map", "[slowvideo]",
     "-map", "[mixedaudio]",
     "-t", fmt audioDuration,
     outputPath]
  else
    ["ffmpeg", "-y",
     "-hwaccel", "cuda",
     "-i", videoPath,
     "-i", audioPath,
     "-c:v", "copy",
     "-c:a", "aac",
     "-b:a", "128k",
     "-filter_complex",
     "[0:a]volume=" ++ fmt videoVolume ++ "[originalvol];"
       ++ "[1:a]volume=" ++ fmt audioVolume ++ "[newvol];"
       ++ "[originalvol][newvol]amix=inputs=2:duration=first:weights=0.5 0.5[mixedaudio]",
     "-map", "0:v:0",
     "-map", "[mixedaudio]",
     "-t", fmt videoDuration,
     outputPath]

/-- Embedding of `VideoProcessor._build_merge_command` (src/processors.py,
lines 101-149), transcribed independently of `buildMergeCommand`. -/
def procBuildMergeCommand (fmt : ℚ → String) (videoPath audioPath outputPath : String)
    (videoDuration audioDuration videoVolume audioVolume : ℚ) : List String :=
  if audioDuration ≥ videoDuration then
    let speedFactor := videoDuration / audioDuration
    ["ffmpeg", "-y",
     "-hwaccel", "cuda",
     "-hwaccel_output_format", "cuda",
     "-i", videoPath,
     "-i", audioPath,
     "-c:v", "h264_nvenc",
     "-preset", "p1",
     "-cq", "28",
     "-c:a", "aac",
     "-b:a", "128k",
     "-filter_complex",
     "[0:v]setpts=PTS*" ++ fmt (1 / speedFactor) ++ "[slowvideo];"
       ++ "[0:a]atempo=" ++ fmt speedFactor ++ ",volume=" ++ fmt videoVolume ++ "[slowaudio];"
       ++ "[1:a]volume=" ++ fmt audioVolume ++ "[newaudio];"
       ++ "[slowaudio][newaudio]amix=inputs=2:duration=longest:weights=0.5 0.5[mixedaudio]",
     "-map", "[slowvideo]",
     "-map", "[mixedaudio]",
     "-t", fmt audioDuration,
     outputPath]
  else
    ["ffmpeg", "-y",
     "-hwaccel", "cuda",
     "-i", videoPath,
     "-i", audioPath,
     "-c:v", "copy",
     "-c:a", "aac",
     "-b:a", "128k",
     "-filter_complex",
     "[0:a]volume=" ++ fmt videoVolume ++ "[originalvol];"
       ++ "[1:a]volume=" ++ fmt audioVolume ++ "[newvol];"
       ++ "[originalvol][newvol]amix=inputs=2:duration=first:weights=0.5 0.5[mixedaudio]",
     "-map", "0:v:0",
     "-map", "[mixedaudio]",
     "-t", fmt videoDuration,
     outputPath]

/-- Embedding of the inline command construction in `process_video`
(src/handler.py, lines 80-122).  There the else-branch `-filter_complex`
value is written as a single f-string (line 117); its literal chunks are
kept as in that source line. -/
def handlerBuildMergeCommand (fmt : ℚ → String) (videoPath audioPath outputPath : String)
    (videoDuration audioDuration videoVolume audioVolume : ℚ) : List String :=
  if audioDuration ≥ videoDuration then
    let speedFactor := videoDuration / audioDuration
    ["ffmpeg", "-y",
     "-hwaccel", "cuda",
     "-hwaccel_output_format", "cuda",
     "-i", videoPath,
     "-i", audioPath,
     "-c:v", "h264_nvenc",
     "-preset", "p1",
     "-cq", "28",
     "-c:a", "aac",
     "-b:a", "128k",
     "-filter_complex",
     "[0:v]setpts=PTS*" ++ fmt (1 / speedFactor) ++ "[slowvideo];"
       ++ "[0:a]atempo=" ++ fmt speedFactor ++ ",volume=" ++ fmt videoVolume ++ "[slowaudio];"
       ++ "[1:a]volume=" ++ fmt audioVolume ++ "[newaudio];"
       ++ "[slowaudio][newaudio]amix=inputs=2:duration=longest:weights=0.5 0.5[mixedaudio]",
     "-map", "[slowvideo]",
     "-map", "[mixedaudio]",
     "-t", fmt audioDuration,
     outputPath]
  else
    ["ffmpeg", "-y",
     "-hwaccel", "cuda",
     "-i", videoPath,
     "-i", audioPath,
     "-c:v", "copy",
     "-c:a", "aac",
     "-b:a", "128k",
     "-filter_complex",
     "[0:a]volume=" ++ fmt videoVolume
       ++ "[originalvol];[1:a]volume=" ++ fmt audioVolume
       ++ "[newvol];[originalvol][newvol]amix=inputs=2:duration=first:weights=0.5 0.5[mixedaudio]",
     "-map", "0:v:0",
     "-map", "[mixedaudio]",
     "-t", fmt videoDuration,
     outputPath]

/-- Embedding of `_calculate_position` (src/overlay.py, lines 83-95): the
position-to-offset table (`total_size = size` there) with the dictionary
`.get` fallback to the `bottom_right` entry. -/
def calculatePosition (position : String) (size margin outputWidth outputHeight : ℤ) : ℤ × ℤ :=
  if position = "bottom_right" then (outputWidth - size - margin, outputHeight - size - margin)
  else if position = "bottom_left" then (margin, outputHeight - size - margin)
  else if position = "top_right" then (outputWidth - size - margin, margin)
  else if position = "top_left" then (margin, margin)
  else (outputWidth - size - margin, outputHeight - size - margin)

/-- The anchor offset actually used by `_build_overlay_command`
(src/overlay.py, line 109): the call `_calculate_position(position, size,
margin)` leaves `output_width`/`output_height` at their defaults 1920 and
1080, and the resulting `x_pos:y_pos` pair is spliced into every `overlay=`
stage of the filter graph. -/
def overlayOffset (position : String) (size margin : ℤ) : ℤ × ℤ :=
  calculatePosition position size margin 1920 1080

/-- The wall-clock timeout handed to the concat execution
(src/concat.py, line 76): `timeout = max(300, len(segments) * 60)`. -/
def concatTimeout (n : ℕ) : ℕ := max 300 (n * 60)

/-- Scale factor of `_generate_parallax_filter` (src/parallax.py, line 99):
`max(zoom_factor, 1.5)`. -/
def scaleFactor (zoomFactor : ℚ) : ℚ := max zoomFactor (3/2)

/-- Oversized canvas width (src/parallax.py, line 100):
`int(img_width * scale_factor)`, truncation by Python `int()`. -/
def scaledWidth (imgWidth : ℕ) (zoomFactor : ℚ) : ℤ :=
  ratTrunc (imgWidth * scaleFactor zoomFactor)

/-- Oversized canvas height (src/parallax.py, line 101). -/
def scaledHeight (imgHeight : ℕ) (zoomFactor : ℚ) : ℤ :=
  ratTrunc (imgHeight * scaleFactor zoomFactor)

/-- Horizontal travel (src/parallax.py, line 104):
`int((scaled_width - output_width) * intensity)`. -/
def maxMovementX (imgWidth outputWidth : ℕ) (zoomFactor intensity : ℚ) : ℤ :=
  ratTrunc (((scaledWidth imgWidth zoomFactor : ℤ) - outputWidth) * intensity)

/-- Vertical travel (src/parallax.py, line 105). -/
def maxMovementY (imgHeight outputHeight : ℕ) (zoomFactor intensity : ℚ) : ℤ :=
  ratTrunc (((scaledHeight imgHeight zoomFactor : ℤ) - outputHeight) * intensity)

/-- Value at time `t` of the interpolated zoom expression emitted on
src/parallax.py lines 124 and 132:
`zoom_start + (zoom_end - zoom_start) * t / duration`. -/
def zoomExprAt (zoomStart zoomEnd duration t : ℚ) : ℚ :=
  zoomStart + (zoomEnd - zoomStart) * t / duration

/-- Value at time `t` of the crop x-offset expression selected by the
`pan_direction` branch ladder of `_generate_parallax_filter`
(src/parallax.py, lines 108-139), including the fallback-to-right default
branch. -/
def parallaxCropX (panDirection : String) (imgWidth imgHeight outputWidth outputHeight : ℕ)
    (zoomFactor intensity duration t : ℚ) : ℚ :=
  if panDirection = "right" then
    t / duration * (maxMovementX imgWidth outputWidth zoomFactor intensity : ℤ)
  else if panDirection = "left" then
    ((maxMovementX imgWidth outputWidth zoomFactor intensity : ℤ) : ℚ)
      - t / duration * (maxMovementX imgWidth outputWidth zoomFactor intensity : ℤ)
  else if panDirection = "down" then
    (((scaledWidth imgWidth zoomFactor : ℤ) : ℚ) - outputWidth) / 2
  else if panDirection = "up" then
    (((scaledWidth imgWidth zoomFactor : ℤ) : ℚ) - outputWidth) / 2
  else if panDirection = "zoom_in" then
    (((scaledWidth imgWidth zoomFactor : ℤ) : ℚ)
      - outputWidth * zoomExprAt 1 zoomFactor duration t) / 2
  else if panDirection = "zoom_out" then
    (((scaledWidth imgWidth zoomFactor : ℤ) : ℚ)
      - outputWidth * zoomExprAt zoomFactor 1 duration t) / 2
  else
    t / duration * (maxMovementX imgWidth outputWidth zoomFactor intensity : ℤ)

/-- Value at time `t` of the crop y-offset expression selected by
`_generate_parallax_filter` (src/parallax.py, lines 108-139). -/
def parallaxCropY (panDirection : String) (imgWidth imgHeight outputWidth outputHeight : ℕ)
    (zoomFactor intensity duration t : ℚ) : ℚ :=
  if panDirection = "right" then
    (((scaledHeight imgHeight zoomFactor : ℤ) : ℚ) - outputHeight) / 2
  else if panDirection = "left" then
    (((scaledHeight imgHeight zoomFactor : ℤ) : ℚ) - outputHeight) / 2
  else if panDirection = "down" then
    t / duration * (maxMovementY imgHeight outputHeight zoomFactor intensity : ℤ)
  else if panDirection = "up" then
    ((maxMovementY imgHeight outputHeight zoomFactor intensity : ℤ) : ℚ)
      - t / duration * (maxMovementY imgHeight outputHeight zoomFactor intensity : ℤ)
  else if panDirection = "zoom_in" then
    (((scaledHeight imgHeight zoomFactor : ℤ) : ℚ)
      - outputHeight * zoomExprAt 1 zoomFactor duration t) / 2
  else if panDirection = "zoom_out" then
    (((scaledHeight imgHeight zoomFactor : ℤ) : ℚ)
      - outputHeight * zoomExprAt zoomFactor 1 duration t) / 2
  else
    (((scaledHeight imgHeight zoomFactor : ℤ) : ℚ) - outputHeight) / 2

/-- Python request values: `None`, strings, numbers (ints and floats both
become rationals), lists, and dictionaries (ordered association lists). -/
inductive JVal where
  | vnone
  | vstr (s : String)
  | vnum (q : ℚ)
  | vlist (items : List JVal)
  | vdict (entries : List (String × JVal))

/-- Python `dict.get(key)`: the value under `key`, or `None` when absent. -/
def jGet (entries : List (String × JVal)) (key : String) : JVal :=
  match entries with
  | [] => .vnone
  | (k, v) :: rest => if k = key then v else jGet rest key

/-- Python `dict.get(key, default)`. -/
def jGetD (entries : List (String × JVal)) (key : String) (dflt : JVal) : JVal :=
  match entries with
  | [] => dflt
  | (k, v) :: rest => if k = key then v else jGetD rest key dflt

/-- Python truthiness of a request value: `None`, the empty string, zero
and empty containers are falsy. -/
def jTruthy : JVal → Bool
  | .vnone => false
  | .vstr s => s != ""
  | .vnum q => q != 0
  | .vlist items => !items.isEmpty
  | .vdict entries => !entries.isEmpty

/-- Whether `urlparse(v)` succeeds: it does for every string (it never
range-checks) and raises for the non-string values a request can hold. -/
def isUrlParseable : JVal → Bool
  | .vstr _ => true
  | _ => false

/-- Python `v == s` for a string literal `s`: true only for equal strings. -/
def jEqStr (v : JVal) (s : String) : Bool :=
  match v with
  | .vstr t => t == s
  | _ => false

/-- Value of a list of decimal digit characters. -/
def digitsVal (cs : List Char) : ℕ :=
  cs.foldl (fun acc c => 10 * acc + (c.toNat - 48)) 0

/-- Python `float(s)` on a string, for the decimal forms
`[+-]digits[.digits]` and `[+-].digits` (exponents, infinities and
underscore separators are outside the subset the requests use). -/
def pyParseFloat (s : String) : Option ℚ :=
  let (sign, cs) :=
    match s.data with
    | '-' :: rest => ((-1 : ℚ), rest)
    | '+' :: rest => ((1 : ℚ), rest)
    | cs => ((1 : ℚ), cs)
  let intPart := cs.takeWhile Char.isDigit
  let rest := cs.dropWhile Char.isDigit
  match rest with
  | [] => if intPart.isEmpty then none else some (sign * digitsVal intPart)
  | '.' :: frac =>
      if frac.all Char.isDigit && (!intPart.isEmpty || !frac.isEmpty) then
        some (sign * ((digitsVal intPart : ℚ) + (digitsVal frac : ℚ) / 10 ^ frac.length))
      else none
  | _ => none

/-- Python `int(s)` on a string: an optionally signed run of digits. -/
def pyParseInt (s : String) : Option ℤ :=
  let (sign, cs) :=
    match s.data with
    | '-' :: rest => ((-1 : ℤ), rest)
    | '+' :: rest => ((1 : ℤ), rest)
    | cs => ((1 : ℤ), cs)
  if !cs.isEmpty && cs.all Char.isDigit then some (sign * digitsVal cs) else none

/-- Python `float(v)`: exact on numbers, parses strings, raises (None
result) on `None`, lists and dictionaries. -/
def pyFloat : JVal → Option ℚ
  | .vnum q => some q
  | .vstr s => pyParseFloat s
  | _ => none

/-- Python `int(v)`: truncates floats toward zero, parses integer
strings, raises on everything else. -/
def pyInt : JVal → Option ℤ
  | .vnum q => some (ratTrunc q)
  | .vstr s => pyParseInt s
  | _ => none

/-- Embedding of `InputValidator.validate_merge_inputs` (src/validators.py,
lines 9-41).  The Python triple `(False, msg, None)` is `.error msg` and
`(True, None, params)` is `.ok params`. -/
def validateMergeInputs (inputData : List (String × JVal)) :
    Except String (List (String × JVal)) :=
  if !jTruthy (jGet inputData "videoUrl") || !jTruthy (jGet inputData "audioUrl") then
    .error "Both videoUrl and audioUrl are required for merge action"
  else if !isUrlParseable (jGet inputData "videoUrl")
      || !isUrlParseable (jGet inputData "audioUrl") then
    .error "Invalid URL format"
  else
    match pyFloat (jGetD inputData "videoVolume" (.vnum 1)),
        pyFloat (jGetD inputData "audioVolume" (.vnum 1)) with
    | some vv, some av =>
        if vv < 0 ∨ vv > 2 ∨ av < 0 ∨ av > 2 then
          .error "Volume values must be between 0 and 2"
        else
          .ok [("video_url", jGet inputData "videoUrl"),
               ("audio_url", jGet inputData "audioUrl"),
               ("video_volume", .vnum vv), ("audio_volume", .vnum av)]
    | _, _ => .error "Invalid volume format"

/-- Embedding of `InputValidator.validate_parallax_inputs`
(src/validators.py, lines 43-110). -/
def validateParallaxInputs (inputData : List (String × JVal)) :
    Except String (List (String × JVal)) :=
  if !jTruthy (jGet inputData "imageUrl") then
    .error "imageUrl is required for parallax action"
  else if !isUrlParseable (jGet inputData "imageUrl") then
    .error "Invalid image URL format"
  else
    match pyFloat (jGetD inputData "duration" (.vnum 10)) with
    | none => .error "Invalid duration format"
    | some d =>
      if d ≤ 0 ∨ d > 60 then
        .error "Duration must be between 0 and 60 seconds"
      else
        match pyInt (jGetD inputData "width" (.vnum 1920)),
            pyInt (jGetD inputData "height" (.vnum 1080)) with
        | some w, some h =>
          if w < 480 ∨ w > 4096 ∨ h < 320 ∨ h > 4096 then
            .error "Resolution must be between 480x320 and 4096x4096"
          else
            match pyFloat (jGetD inputData "zoomFactor" (.vnum (6/5))) with
            | none => .error "Invalid zoom factor format"
            | some zf =>
              if zf < 11/10 ∨ zf > 2 then
                .error "Zoom factor must be between 1.1 and 2.0"
              else
                if !(jEqStr (jGetD inputData "panDirection" (.vstr "right")) "left"
                    || jEqStr (jGetD inputData "panDirection" (.vstr "right")) "right"
                    || jEqStr (jGetD inputData "panDirection" (.vstr "right")) "up"
                    || jEqStr (jGetD inputData "panDirection" (.vstr "right")) "down"
                    || jEqStr (jGetD inputData "panDirection" (.vstr "right")) "zoom_in"
                    || jEqStr (jGetD inputData "panDirection" (.vstr "right")) "zoom_out") then
                  .error "Pan direction must be one of: left, right, up, down, zoom_in, zoom_out"
                else
                  match pyFloat (jGetD inputData "intensity" (.vnum (1/2))) with
                  | none => .error "Invalid intensity format"
                  | some it =>
                    if it < 1/10 ∨ it > 1 then
                      .error "Intensity must be between 0.1 and 1.0"
                    else
                      .ok [("image_url", jGet inputData "imageUrl"),
                           ("duration", .vnum d),
                           ("width", .vnum w), ("height", .vnum h),
                           ("zoom_factor", .vnum zf),
                           ("pan_direction", jGetD inputData "panDirection" (.vstr "right")),
                           ("intensity", .vnum it)]
        | _, _ => .error "Invalid resolution format"

/-- Whether Python `int(s, 16)` accepts the character run: an optional
sign, an optional `0x`/`0X` prefix, then at least one hex digit. -/
def pyHexParseable (cs : List Char) : Bool :=
  let cs := match cs with
    | '-' :: rest => rest
    | '+' :: rest => rest
    | cs => cs
  let cs := match cs with
    | '0' :: 'x' :: rest => rest
    | '0' :: 'X' :: rest => rest
    | cs => cs
  !cs.isEmpty && cs.all fun c =>
    c.isDigit || ('a' ≤ c && c ≤ 'f') || ('A' ≤ c && c ≤ 'F')

/-- Embedding of `InputValidator.validate_overlay_pip_inputs`
(src/validators.py, lines 112-185).  Python strips leading hash characters with lstrip; here that is dropWhile. -/
def validateOverlayPipInputs (inputData : List (String × JVal)) :
    Except String (List (String × JVal)) :=
  if !jTruthy (jGet inputData "backgroundUrl") then
    .error "backgroundUrl is required for overlay_pip action"
  else if !jTruthy (jGet inputData "overlayUrl") then
    .error "overlayUrl is required for overlay_pip action"
  else if !isUrlParseable (jGet inputData "backgroundUrl")
      || !isUrlParseable (jGet inputData "overlayUrl") then
    .error "Invalid URL format"
  else if !(jEqStr (jGetD inputData "position" (.vstr "bottom_right")) "bottom_right"
      || jEqStr (jGetD inputData "position" (.vstr "bottom_right")) "bottom_left"
      || jEqStr (jGetD inputData "position" (.vstr "bottom_right")) "top_right"
      || jEqStr (jGetD inputData "position" (.vstr "bottom_right")) "top_left") then
    .error "Position must be one of: bottom_right, bottom_left, top_right, top_left"
  else
    match pyInt (jGetD inputData "size" (.vnum 200)) with
    | none => .error "Invalid size format"
    | some size =>
      if size < 50 ∨ size > 800 then
        .error "Size must be between 50 and 800 pixels"
      else
        match pyInt (jGetD inputData "margin" (.vnum 20)) with
        | none => .error "Invalid margin format"
        | some margin =>
          if margin < 0 ∨ margin > 200 then
            .error "Margin must be between 0 and 200 pixels"
          else
            match pyInt (jGetD inputData "borderWidth" (.vnum 3)) with
            | none => .error "Invalid border width format"
            | some bw =>
              if bw < 0 ∨ bw > 20 then
                .error "Border width must be between 0 and 20 pixels"
              else
                match jGetD inputData "borderColor" (.vstr "#ffffff") with
                | .vstr hexStr =>
                  if (hexStr.data.dropWhile (fun c => c == '#')).length ≠ 6 then
                    .error "Border color must be in hex format (e.g., #ffffff)"
                  else if !pyHexParseable (hexStr.data.dropWhile (fun c => c == '#')) then
                    .error "Invalid hex color format"
                  else
                    .ok [("background_url", jGet inputData "backgroundUrl"),
                         ("overlay_url", jGet inputData "overlayUrl"),
                         ("position", jGetD inputData "position" (.vstr "bottom_right")),
                         ("size", .vnum size), ("margin", .vnum margin),
                         ("border_width", .vnum bw),
                         ("border_color",
                          .vstr ("#" ++ String.mk (hexStr.data.dropWhile (fun c => c == '#'))))]
                | _ => .error "Border color must be a string"

/-- Body of the per-segment loop of `InputValidator.validate_concat_inputs`
(src/validators.py, lines 209-246) for the segment at index `i`. -/
def validateSegmentItem (i : ℕ) (item : JVal) : Except String JVal :=
  match item with
  | .vdict entries =>
    if !jTruthy (jGet entries "url") then
      .error ("Segment " ++ toString i ++ " missing \x27url\x27 field")
    else if !isUrlParseable (jGet entries "url") then
      .error ("Segment " ++ toString i ++ " has invalid URL format")
    else
      match pyFloat (jGetD entries "trim_start" (.vnum 0)) with
      | none => .error ("Segment " ++ toString i ++ " has invalid trim_start format")
      | some ts =>
        if ts < 0 then
          .error ("Segment " ++ toString i ++ " trim_start cannot be negative")
        else
          match jGet entries "trim_end" with
          | .vnone =>
              .ok (.vdict [("url", jGet entries "url"),
                           ("trim_start", .vnum ts), ("trim_end", .vnone)])
          | te =>
              match pyFloat te with
              | none => .error ("Segment " ++ toString i ++ " has invalid trim_end format")
              | some teq =>
                if teq ≤ ts then
                  .error ("Segment " ++ toString i
                    ++ " trim_end must be greater than trim_start")
                else
                  .ok (.vdict [("url", jGet entries "url"),
                               ("trim_start", .vnum ts), ("trim_end", .vnum teq)])
  | _ => .error ("Segment " ++ toString i ++ " must be an object")

/-- The segment loop of `validate_concat_inputs`: validates the items in
order, failing fast with the first offending index. -/
def validateSegmentsList : ℕ → List JVal → Except String (List JVal)
  | _, [] => .ok []
  | i, item :: rest =>
    match validateSegmentItem i item with
    | .error m => .error m
    | .ok v =>
      match validateSegmentsList (i + 1) rest with
      | .error m => .error m
      | .ok vs => .ok (v :: vs)

/-- Embedding of `InputValidator.validate_concat_inputs`
(src/validators.py, lines 187-261). -/
def validateConcatInputs (inputData : List (String × JVal)) :
    Except String (List (String × JVal)) :=
  if !jTruthy (jGet inputData "segments") then
    .error "segments array is required for concat action"
  else
    match jGet inputData "segments" with
    | .vlist segs =>
      if segs.length = 0 then .error "segments array cannot be empty"
      else if segs.length > 50 then .error "Maximum 50 segments allowed"
      else
        match validateSegmentsList 0 segs with
        | .error m => .error m
        | .ok vsegs =>
          match pyInt (jGetD inputData "width" (.vnum 1920)),
              pyInt (jGetD inputData "height" (.vnum 1080)) with
          | some w, some h =>
            if w < 480 ∨ w > 4096 ∨ h < 320 ∨ h > 4096 then
              .error "Resolution must be between 480x320 and 4096x4096"
            else
              .ok [("segments", .vlist vsegs), ("width", .vnum w), ("height", .vnum h)]
          | _, _ => .error "Invalid resolution format"
    | _ => .error "segments must be an array"

/-- Response shape of the top-level handler: the `{output: {...}}` success
dictionary or the `{error: msg}` failure dictionary. -/
inductive HandlerResponse where
  | output (fields : List (String × JVal))
  | failure (msg : String)

/-- Python `str(v)` as used in the unknown-action f-string; the rendering
of numbers is the abstract `fmt` and the container renderings are stubs
(no theorem instantiates them). -/
def pyStrOfJVal (fmt : ℚ → String) : JVal → String
  | .vstr s => s
  | .vnum q => fmt q
  | .vnone => "None"
  | .vlist _ => "[...]"
  | .vdict _ => "\x7b...\x7d"

/-- Embedding of `handler` (src/handler.py, lines 258-415): the
action-dispatch, field validation and response construction.  The
download/FFmpeg effects of `process_video` and `create_parallax_video` are
abstracted by the byte oracles `mergeBytes`/`parallaxBytes` (the bytes the
processing returns when it succeeds) and base64 by `b64`; a non-dictionary
`input` value, on which Python raises `AttributeError` into the top-level
`except`, is mapped to a failure response. -/
def handlerRun (fmt : ℚ → String) (b64 : List ℕ → String)
    (mergeBytes parallaxBytes : List ℕ) (event : List (String × JVal)) :
    HandlerResponse :=
  match jGetD event "input" (.vdict []) with
  | .vdict inputData =>
    if jEqStr (jGetD inputData "action" (.vstr "merge")) "merge" then
      if !jTruthy (jGet inputData "videoUrl") || !jTruthy (jGet inputData "audioUrl") then
        .failure "Both videoUrl and audioUrl are required for merge action"
      else if !isUrlParseable (jGet inputData "videoUrl")
          || !isUrlParseable (jGet inputData "audioUrl") then
        .failure "Invalid URL format"
      else
        match pyFloat (jGetD inputData "videoVolume" (.vnum 1)),
            pyFloat (jGetD inputData "audioVolume" (.vnum 1)) with
        | some vv, some av =>
          if vv < 0 ∨ vv > 2 ∨ av < 0 ∨ av > 2 then
            .failure "Volume values must be between 0 and 2"
          else if mergeBytes.length = 0 then
            .failure "Video processing returned empty data"
          else
            .output [("video_data", .vstr (b64 mergeBytes)),
                     ("content_type", .vstr "video/mp4"),
                     ("size_bytes", .vnum (mergeBytes.length : ℚ)),
                     ("action", .vstr "merge")]
        | _, _ => .failure "Invalid volume format"
    else if jEqStr (jGetD inputData "action" (.vstr "merge")) "parallax" then
      if !jTruthy (jGet inputData "imageUrl") then
        .failure "imageUrl is required for parallax action"
      else
        match pyFloat (jGetD inputData "duration" (.vnum 10)) with
        | none => .failure "Invalid duration format"
        | some d =>
          if d ≤ 0 ∨ d > 60 then
            .failure "Duration must be between 0 and 60 seconds"
          else
            match pyInt (jGetD inputData "width" (.vnum 1920)),
                pyInt (jGetD inputData "height" (.vnum 1080)) with
            | some w, some hgt =>
              if w < 480 ∨ w > 4096 ∨ hgt < 320 ∨ hgt > 4096 then
                .failure "Resolution must be between 480x320 and 4096x4096"
              else if !isUrlParseable (jGet inputData "imageUrl") then
                .failure "Invalid image URL format"
              else
                .output [("video_data", .vstr (b64 parallaxBytes)),
                         ("content_type", .vstr "video/mp4"),
                         ("size_bytes", .vnum (parallaxBytes.length : ℚ)),
                         ("action", .vstr "parallax"),
                         ("duration", .vnum d),
                         ("resolution", .vstr (toString w ++ "x" ++ toString hgt))]
            | _, _ => .failure "Invalid resolution format"
    else
      .failure ("Unknown action: "
        ++ pyStrOfJVal fmt (jGetD inputData "action" (.vstr "merge"))
        ++ ". Supported actions: \x27merge\x27, \x27parallax\x27")
  | _ => .failure "AttributeError: input is not an object"

/-- A validated concat segment (src/concat.py reads `url`, `trim_start`,
`trim_end` from each segment dictionary). -/
structure ConcatSegment where
  url : String
  trimStart : ℚ
  trimEnd : Option ℚ

/-- Download target path for segment `i` (src/concat.py, line 44). -/
def segInputPath (tempDir jobId : String) (i : ℕ) : String :=
  tempDir ++ "/segment_" ++ jobId ++ "_" ++ toString i ++ "_input.mp4"

/-- Processed-output path for segment `i` (src/concat.py, line 45). -/
def segProcessedPath (tempDir jobId : String) (i : ℕ) : String :=
  tempDir ++ "/segment_" ++ jobId ++ "_" ++ toString i ++ "_processed.mp4"

/-- The scale-then-pad normalization filter of `_process_segment`
(src/concat.py, lines 95-99). -/
def scalePadFilter (width height : ℤ) : String :=
  "scale=" ++ toString width ++ ":" ++ toString height
    ++ ":force_original_aspect_ratio=decrease,pad=" ++ toString width ++ ":"
    ++ toString height ++ ":(ow-iw)/2:(oh-ih)/2:black,setsar=1"

/-- The per-segment FFmpeg command built by `_process_segment`
(src/concat.py, lines 101-125): optional `-ss` trim start, optional `-t`
duration `trim_end - trim_start`, normalization filter and re-encode. -/
def processSegmentCmd (fmt : ℚ → String) (inputPath outputPath : String)
    (trimStart : ℚ) (trimEnd : Option ℚ) (width height : ℤ) : List String :=
  ["ffmpeg", "-y"]
    ++ (if 0 < trimStart then ["-ss", fmt trimStart] else [])
    ++ ["-i", inputPath]
    ++ (match trimEnd with
        | some te => ["-t", fmt (te - trimStart)]
        | none => [])
    ++ ["-vf", scalePadFilter width height,
        "-c:v", "h264_nvenc", "-preset", "p4", "-cq", "23",
        "-pix_fmt", "yuv420p",
        "-c:a", "aac", "-b:a", "128k", "-ar", "44100", "-ac", "2",
        outputPath]

/-- The download-and-process loop of `concat_videos` (src/concat.py,
lines 35-61), started at index `i`: the per-segment commands and the
processed paths, both in segment order. -/
def buildSegmentJobs (fmt : ℚ → String) (tempDir jobId : String) (width height : ℤ) :
    ℕ → List ConcatSegment → List (List String) × List String
  | _, [] => ([], [])
  | i, seg :: rest =>
      let cmd := processSegmentCmd fmt (segInputPath tempDir jobId i)
        (segProcessedPath tempDir jobId i) seg.trimStart seg.trimEnd width height
      let next := buildSegmentJobs fmt tempDir jobId width height (i + 1) rest
      (cmd :: next.1, segProcessedPath tempDir jobId i :: next.2)

/-- The lines written to the concat list file (src/concat.py,
lines 65-67): `file \x27<path>\x27` per processed path, in order. -/
def concatListLines (paths : List String) : List String :=
  paths.map fun p => "file \x27" ++ p ++ "\x27"

/-- Embedding of `_build_concat_command` (src/concat.py, lines 139-155):
the final concat-demuxer command reading the list file. -/
def buildConcatCommand (concatListPath outputPath : String) : List String :=
  ["ffmpeg", "-y", "-f", "concat", "-safe", "0", "-i", concatListPath,
   "-c:v", "h264_nvenc", "-preset", "p4", "-cq", "23", "-pix_fmt", "yuv420p",
   "-c:a", "aac", "-b:a", "128k", outputPath]

/-- Outcome of one `subprocess.run` invocation of the codec engine:
completion with captured streams and exit code, or timeout expiry. -/
inductive RunOutcome where
  | completed (stdout stderr : String) (returncode : ℤ)
  | timedOut
deriving DecidableEq

/-- Embedding of `run_ffmpeg_command` (src/ffmpeg_utils.py, lines 6-39):
returns the `(stdout, stderr, returncode)` triple on completion and raises
(as `.error`) the timeout message on `TimeoutExpired`. -/
def runFfmpegCommand (outcome : RunOutcome) (timeout : ℕ) :
    Except String (String × String × ℤ) :=
  match outcome with
  | .completed o e r => .ok (o, e, r)
  | .timedOut =>
      .error ("FFmpeg command timed out after " ++ toString timeout ++ " seconds")

/-- Embedding of `validate_output_file` (src/ffmpeg_utils.py, lines
42-66) over the declared output path state: `none` models a missing file,
`some data` a file holding `data`. -/
def validateOutputFile (fileState : Option (List ℕ)) : Except String ℕ :=
  match fileState with
  | none => .error "Output file was not created"
  | some data =>
      if data.length = 0 then .error "Output file is empty" else .ok data.length

/-- Embedding of `read_video_file` (src/ffmpeg_utils.py, lines 69-91). -/
def readVideoFile (data : List ℕ) : Except String (List ℕ) :=
  if data.isEmpty then .error "File data is empty" else .ok data

/-- Embedding of `execute_ffmpeg_pipeline` (src/ffmpeg_utils.py, lines
154-180): run, check the exit code, validate the output file, read it.
The `"File data is empty"` arm is unreachable (validation already ensured
the file exists) but kept from the source. -/
def executeFfmpegPipeline (outcome : RunOutcome) (fileState : Option (List ℕ))
    (timeout : ℕ) : Except String (List ℕ) :=
  match runFfmpegCommand outcome timeout with
  | .error m => .error m
  | .ok (_, stderr, returncode) =>
      if returncode ≠ 0 then .error ("FFmpeg processing failed: " ++ stderr)
      else
        match validateOutputFile fileState with
        | .error m => .error m
        | .ok _ =>
            match fileState with
            | none => .error "File data is empty"
            | some data => readVideoFile data

/-- The exit code carried by an outcome, if it completed. -/
def RunOutcome.exitCode : RunOutcome → Option ℤ
  | .completed _ _ r => some r
  | .timedOut => none

/-- Spec-side contract of the execute-validate-read pipeline, assembled
from the words of the claim: bytes exactly on zero exit with an existing
non-empty output; the stderr-carrying failure on non-zero exit; the
distinct timeout error; the two integrity errors otherwise. -/
def pipelineContract (outcome : RunOutcome) (fileState : Option (List ℕ))
    (timeout : ℕ) : Except String (List ℕ) :=
  match outcome with
  | .timedOut =>
      .error ("FFmpeg command timed out after " ++ toString timeout ++ " seconds")
  | .completed _ stderr returncode =>
      if returncode ≠ 0 then .error ("FFmpeg processing failed: " ++ stderr)
      else
        match fileState with
        | none => .error "Output file was not created"
        | some [] => .error "Output file is empty"
        | some data => .ok data

/-- Appending strings concatenates their character data (definitional). -/
theorem strDataAppend (a b : String) : (a ++ b).data = a.data ++ b.data := rfl

/-- String append is associative; used to normalise filter-graph strings that
the Python sources assemble from differently chunked f-string literals. -/
theorem strAppendAssoc (a b c : String) : a ++ b ++ c = a ++ (b ++ c) := by
  apply congrArg String.mk
  show (a ++ b).data ++ c.data = a.data ++ (b ++ c).data
  rw [strDataAppend, strDataAppend, List.append_assoc]

/-- Python `int()` is the identity on integer-valued rationals. -/
theorem ratTrunc_intCast (w : ℤ) : ratTrunc (w : ℚ) = w := by
  by_cases h : (0:ℚ) ≤ (w : ℚ) <;> simp [ratTrunc, h]

/-- C1: for positive probed durations, `_build_merge_command` (src/merge.py)
takes the time-stretch branch exactly when `audio_duration >= video_duration`,
emitting the `setpts=PTS*(1/speed_factor)` video filter, the `atempo=speed_factor`
audio tempo stage and an output clamp of `audio_duration`; at exact equality the
same branch is taken with `speed_factor = video_duration / audio_duration = 1`;
when the video is strictly longer it emits a stream-copy command (`-c:v copy`)
clamped to `video_duration`. -/
theorem merge_branch_selection (fmt : ℚ → String) (vp ap op : String)
    (vd ad vv av : ℚ) (hvd : 0 < vd) (had : 0 < ad) :
    (vd ≤ ad →
        buildMergeCommand fmt vp ap op vd ad vv av =
          ["ffmpeg", "-y",
           "-hwaccel", "cuda",
           "-hwaccel_output_format", "cuda",
           "-i", vp,
           "-i", ap,
           "-c:v", "h264_nvenc",
           "-preset", "p1",
           "-cq", "28",
           "-c:a", "aac",
           "-b:a", "128k",
           "-filter_complex",
           "[0:v]setpts=PTS*" ++ fmt (1 / (vd / ad)) ++ "[slowvideo];"
             ++ "[0:a]atempo=" ++ fmt (vd / ad) ++ ",volume=" ++ fmt vv ++ "[slowaudio];"
             ++ "[1:a]volume=" ++ fmt av ++ "[newaudio];"
             ++ "[slowaudio][newaudio]amix=inputs=2:duration=longest:weights=0.5 0.5[mixedaudio]",
           "-map", "[slowvideo]",
           "-map", "[mixedaudio]",
           "-t", fmt ad,
           op]) ∧
    (vd = ad → vd / ad = 1) ∧
    (ad < vd →
        buildMergeCommand fmt vp ap op vd ad vv av =
          ["ffmpeg", "-y",
           "-hwaccel", "cuda",
           "-i", vp,
           "-i", ap,
           "-c:v", "copy",
           "-c:a", "aac",
           "-b:a", "128k",
           "-filter_complex",
           "[0:a]volume=" ++ fmt vv ++ "[originalvol];"
             ++ "[1:a]volume=" ++ fmt av ++ "[newvol];"
             ++ "[originalvol][newvol]amix=inputs=2:duration=first:weights=0.5 0.5[mixedaudio]",
           "-map", "0:v:0",
           "-map", "[mixedaudio]",
           "-t", fmt vd,
           op]) := by
  refine ⟨?_, ?_, ?_⟩
  · intro h
    rw [buildMergeCommand, if_pos (show ad ≥ vd from h)]
  · intro h
    rw [h, div_self (ne_of_gt had)]
  · intro h
    rw [buildMergeCommand, if_neg (not_le.mpr h)]

/-- Witness for C1 at `video_duration = 10`, `audio_duration = 20`,
both volumes `1.0`: the stretch branch is taken and clamped to 20 s. -/
theorem merge_branch_selection_witness :
    (0:ℚ) < 10 ∧ (0:ℚ) < 20 ∧ (10:ℚ) ≤ 20 ∧
    buildMergeCommand ratStr "v.mp4" "a.mp3" "out.mp4" 10 20 1 1 =
      ["ffmpeg", "-y",
       "-hwaccel", "cuda",
       "-hwaccel_output_format", "cuda",
       "-i", "v.mp4",
       "-i", "a.mp3",
       "-c:v", "h264_nvenc",
       "-preset", "p1",
       "-cq", "28",
       "-c:a", "aac",
       "-b:a", "128k",
       "-filter_complex",
       "[0:v]setpts=PTS*" ++ ratStr (1 / ((10:ℚ) / 20)) ++ "[slowvideo];"
         ++ "[0:a]atempo=" ++ ratStr ((10:ℚ) / 20) ++ ",volume=" ++ ratStr 1 ++ "[slowaudio];"
         ++ "[1:a]volume=" ++ ratStr 1 ++ "[newaudio];"
         ++ "[slowaudio][newaudio]amix=inputs=2:duration=longest:weights=0.5 0.5[mixedaudio]",
       "-map", "[slowvideo]",
       "-map", "[mixedaudio]",
       "-t", ratStr 20,
       "out.mp4"] :=
  ⟨by norm_num, by norm_num, by norm_num,
    (merge_branch_selection ratStr "v.mp4" "a.mp3" "out.mp4" 10 20 1 1
      (by norm_num) (by norm_num)).1 (by norm_num)⟩

/-- C10: the three duplicated merge synthesizers - `_build_merge_command` in
src/merge.py, `VideoProcessor._build_merge_command` in src/processors.py, and
the inline construction in `process_video` in src/handler.py - produce the
identical FFmpeg argument list for identical paths, durations and volumes. -/
theorem merge_builders_equivalent (fmt : ℚ → String) (vp ap op : String)
    (vd ad vv av : ℚ) :
    buildMergeCommand fmt vp ap op vd ad vv av
        = procBuildMergeCommand fmt vp ap op vd ad vv av ∧
    buildMergeCommand fmt vp ap op vd ad vv av
        = handlerBuildMergeCommand fmt vp ap op vd ad vv av := by
  constructor
  · rfl
  · rw [buildMergeCommand, handlerBuildMergeCommand]
    by_cases h : ad ≥ vd
    · rw [if_pos h, if_pos h]
    · rw [if_neg h, if_neg h]
      simp only [List.cons.injEq, and_true, true_and]
      rw [strAppendAssoc ("[0:a]volume=" ++ fmt vv) "[originalvol];" "[1:a]volume=",
          show ("[originalvol];" ++ "[1:a]volume=" : String) = "[originalvol];[1:a]volume=" from rfl,
          strAppendAssoc _ "[newvol];"
            "[originalvol][newvol]amix=inputs=2:duration=first:weights=0.5 0.5[mixedaudio]",
          show ("[newvol];" ++ "[originalvol][newvol]amix=inputs=2:duration=first:weights=0.5 0.5[mixedaudio]" : String) = "[newvol];[originalvol][newvol]amix=inputs=2:duration=first:weights=0.5 0.5[mixedaudio]" from rfl]

/-- C4 counterexample: for a 1280x720 background canvas the claim predicts a
`bottom_right` offset of `(1280-200-20, 720-200-20) = (1060, 500)`, but the
command builder never consults the background's probed dimensions and
computes `(1920-200-20, 1080-200-20) = (1700, 860)`. -/
theorem overlay_offset_counterexample :
    overlayOffset "bottom_right" 200 20 = (1700, 860) ∧
    overlayOffset "bottom_right" 200 20 ≠ ((1280:ℤ) - 200 - 20, (720:ℤ) - 200 - 20) := by
  constructor <;> decide

/-- C4 amended: the overlay offset is computed deterministically from the
FIXED default 1920x1080 canvas (not from the background's probed
dimensions): bottom_right gives `(1920-size-margin, 1080-size-margin)`,
bottom_left `(margin, 1080-size-margin)`, top_right `(1920-size-margin,
margin)`, top_left `(margin, margin)`, and any unknown position value falls
back to the bottom_right offset. -/
theorem overlay_offset_spec (size margin : ℤ) :
    overlayOffset "bottom_right" size margin = (1920 - size - margin, 1080 - size - margin) ∧
    overlayOffset "bottom_left" size margin = (margin, 1080 - size - margin) ∧
    overlayOffset "top_right" size margin = (1920 - size - margin, margin) ∧
    overlayOffset "top_left" size margin = (margin, margin) ∧
    ∀ p : String, p ≠ "bottom_right" → p ≠ "bottom_left" → p ≠ "top_right" → p ≠ "top_left" →
      overlayOffset p size margin = (1920 - size - margin, 1080 - size - margin) := by
  refine ⟨rfl, rfl, rfl, rfl, ?_⟩
  intro p h1 h2 h3 h4
  simp [overlayOffset, calculatePosition, h1, h2, h3, h4]

/-- Witness for C4 amended: the spec's own example `size=200, margin=20,
top_left` gives offset `(20, 20)`, and the unknown value "center" falls
back to the bottom_right offset. -/
theorem overlay_offset_spec_witness :
    overlayOffset "top_left" 200 20 = (20, 20) ∧
    ("center" : String) ≠ "bottom_right" ∧
    overlayOffset "center" 200 20 = (1920 - 200 - 20, 1080 - 200 - 20) :=
  ⟨(overlay_offset_spec 200 20).2.2.2.1, by decide,
   (overlay_offset_spec 200 20).2.2.2.2 "center" (by decide) (by decide) (by decide) (by decide)⟩

/-- C6 counterexample: the concat timeout is not of the affine form
`f + a*n` with `a > 0` on 1..50 - it is constant (300 s) for 1 to 5
segments, so no strictly positive per-segment constant fits. -/
theorem concat_timeout_counterexample :
    concatTimeout 1 = 300 ∧ concatTimeout 2 = 300 ∧
    ¬ ∃ f a : ℕ, 0 < a ∧ ∀ n : ℕ, 1 ≤ n → n ≤ 50 → concatTimeout n = f + a * n := by
  refine ⟨rfl, rfl, ?_⟩
  rintro ⟨f, a, ha, h⟩
  have h1 := h 1 (by norm_num) (by norm_num)
  have h2 := h 2 (by norm_num) (by norm_num)
  norm_num [concatTimeout] at h1 h2
  omega

/-- C6 amended: the concat timeout is `max(300, 60*n)`: a 300-second floor
with a 60-second per-segment allowance.  It is monotone in the segment
count, equals the floor for n <= 5, and is strictly increasing (exactly
affine, 60 per segment) only from 5 segments up. -/
theorem concat_timeout_amended (n m : ℕ) (h1 : 1 ≤ n) (h2 : n ≤ m) (h3 : m ≤ 50) :
    concatTimeout n ≤ concatTimeout m ∧
    (n ≤ 5 → concatTimeout n = 300) ∧
    (5 ≤ n → concatTimeout n = 60 * n) ∧
    (5 ≤ n → n < m → concatTimeout n < concatTimeout m) := by
  simp only [concatTimeout]
  omega

/-- Witness for C6 amended at n = 5, m = 6. -/
theorem concat_timeout_amended_witness :
    1 ≤ 5 ∧ (5:ℕ) ≤ 6 ∧ 6 ≤ 50 ∧ concatTimeout 5 ≤ concatTimeout 6 ∧
    concatTimeout 5 = 300 ∧ concatTimeout 5 = 60 * 5 ∧ concatTimeout 5 < concatTimeout 6 :=
  ⟨by norm_num, by norm_num, by norm_num,
   (concat_timeout_amended 5 6 (by norm_num) (by norm_num) (by norm_num)).1,
   (concat_timeout_amended 5 6 (by norm_num) (by norm_num) (by norm_num)).2.1 (by norm_num),
   (concat_timeout_amended 5 6 (by norm_num) (by norm_num) (by norm_num)).2.2.1 (by norm_num),
   (concat_timeout_amended 5 6 (by norm_num) (by norm_num) (by norm_num)).2.2.2 (by norm_num) (by norm_num)⟩

/-- The interpolated zoom factor never exceeds `zoom_factor` on
`[0, duration]`, for both the zoom-in and the zoom-out interpolation. -/
theorem zoomExprAt_le (zf d t : ℚ) (h1 : 1 ≤ zf) (hd : 0 < d) (ht0 : 0 ≤ t) (ht1 : t ≤ d) :
    zoomExprAt 1 zf d t ≤ zf ∧ zoomExprAt zf 1 d t ≤ zf := by
  have hr0 : 0 ≤ t / d := div_nonneg ht0 hd.le
  have hr1 : t / d ≤ 1 := (div_le_one hd).mpr ht1
  constructor
  · have h : (zf - 1) * (t / d) ≤ (zf - 1) * 1 :=
      mul_le_mul_of_nonneg_left hr1 (by linarith)
    simp only [zoomExprAt, mul_div_assoc]
    linarith
  · have h : (1 - zf) * (t / d) ≤ 0 :=
      mul_nonpos_iff.mpr (Or.inr ⟨by linarith, hr0⟩)
    simp only [zoomExprAt, mul_div_assoc]
    linarith

/-- C3 counterexample: for a 100x100 probed image, a validated 480x320
output, `zoom_factor = 2.0` (and intensity 0.5, duration 10, t = 10 - all
inside the claim's ranges) the crop-window invariant fails:
`output_width * z(t) = 960` exceeds `scaled_width = int(100*2.0) = 200`.
The `scale_factor >= zoom_factor` choice alone does not guarantee it. -/
theorem parallax_zoom_invariant_counterexample :
    ((11:ℚ)/10 ≤ 2 ∧ (2:ℚ) ≤ 2) ∧ ((1:ℚ)/10 ≤ 1/2 ∧ (1:ℚ)/2 ≤ 1) ∧
    ((0:ℚ) < 10 ∧ (0:ℚ) ≤ 10 ∧ (10:ℚ) ≤ 10) ∧
    480 ≤ 4096 ∧ 320 ≤ 4096 ∧
    ¬ ((480 : ℚ) * zoomExprAt 1 2 10 10 ≤ ((scaledWidth 100 2 : ℤ) : ℚ)) := by
  refine ⟨⟨by norm_num, by norm_num⟩, ⟨by norm_num, by norm_num⟩,
    ⟨by norm_num, by norm_num, by norm_num⟩, by norm_num, by norm_num, ?_⟩
  norm_num [zoomExprAt, scaledWidth, scaleFactor, ratTrunc, max_def]

/-- C3 amended: the invariant `output_dim * z(t) <= scaled_dim` holds for
all `t` in `[0, duration]` and both zoom directions PROVIDED the oversized
canvas is large enough at full zoom, i.e. `output_dim * zoom_factor <=
scaled_dim` on both axes (which the code does not check; it fails for
images smaller than the requested output).  The claim's unconditional
version is refuted by the counterexample. -/
theorem parallax_zoom_invariant_amended
    (imgWidth imgHeight outputWidth outputHeight : ℕ)
    (zoomFactor intensity duration t : ℚ)
    (hz : 11/10 ≤ zoomFactor ∧ zoomFactor ≤ 2)
    (hi : 1/10 ≤ intensity ∧ intensity ≤ 1)
    (hd : 0 < duration) (ht0 : 0 ≤ t) (ht1 : t ≤ duration)
    (hw : (outputWidth : ℚ) * zoomFactor ≤ ((scaledWidth imgWidth zoomFactor : ℤ) : ℚ))
    (hh : (outputHeight : ℚ) * zoomFactor ≤ ((scaledHeight imgHeight zoomFactor : ℤ) : ℚ)) :
    (outputWidth : ℚ) * zoomExprAt 1 zoomFactor duration t
        ≤ ((scaledWidth imgWidth zoomFactor : ℤ) : ℚ) ∧
    (outputWidth : ℚ) * zoomExprAt zoomFactor 1 duration t
        ≤ ((scaledWidth imgWidth zoomFactor : ℤ) : ℚ) ∧
    (outputHeight : ℚ) * zoomExprAt 1 zoomFactor duration t
        ≤ ((scaledHeight imgHeight zoomFactor : ℤ) : ℚ) ∧
    (outputHeight : ℚ) * zoomExprAt zoomFactor 1 duration t
        ≤ ((scaledHeight imgHeight zoomFactor : ℤ) : ℚ) := by
  obtain ⟨hle1, hle2⟩ := zoomExprAt_le zoomFactor duration t (by linarith [hz.1]) hd ht0 ht1
  refine ⟨?_, ?_, ?_, ?_⟩
  · exact le_trans (mul_le_mul_of_nonneg_left hle1 (Nat.cast_nonneg outputWidth)) hw
  · exact le_trans (mul_le_mul_of_nonneg_left hle2 (Nat.cast_nonneg outputWidth)) hw
  · exact le_trans (mul_le_mul_of_nonneg_left hle1 (Nat.cast_nonneg outputHeight)) hh
  · exact le_trans (mul_le_mul_of_nonneg_left hle2 (Nat.cast_nonneg outputHeight)) hh

/-- Witness for C3 amended on a 1000x1000 image, 800x800 output,
`zoom_factor = 1.2`, `t = 2` of 5 seconds. -/
theorem parallax_zoom_invariant_amended_witness :
    ((11:ℚ)/10 ≤ 6/5 ∧ (6:ℚ)/5 ≤ 2) ∧ ((1:ℚ)/10 ≤ 1 ∧ (1:ℚ) ≤ 1) ∧
    (0:ℚ) < 5 ∧ (0:ℚ) ≤ 2 ∧ (2:ℚ) ≤ 5 ∧
    (800 : ℚ) * (6/5) ≤ ((scaledWidth 1000 (6/5) : ℤ) : ℚ) ∧
    (800 : ℚ) * zoomExprAt 1 (6/5) 5 2 ≤ ((scaledWidth 1000 (6/5) : ℤ) : ℚ) :=
  ⟨⟨by norm_num, by norm_num⟩, ⟨by norm_num, by norm_num⟩,
   by norm_num, by norm_num, by norm_num,
   by norm_num [scaledWidth, scaleFactor, ratTrunc, max_def],
   (parallax_zoom_invariant_amended 1000 1000 800 800 (6/5) 1 5 2
     ⟨by norm_num, by norm_num⟩ ⟨by norm_num, by norm_num⟩
     (by norm_num) (by norm_num) (by norm_num)
     (by norm_num [scaledWidth, scaleFactor, ratTrunc, max_def])
     (by norm_num [scaledHeight, scaleFactor, ratTrunc, max_def])).1⟩

/-- C7: for `panDirection="right"` the crop x-offset is the linear function
`x(t) = t/duration * max_movement_x` with y fixed at the vertical center
`(scaled_height - output_height)/2`; "left" is the mirror
`x(t) = max_movement_x - t/duration * max_movement_x`; and on the spec's
example (1000x1000 image, 800x800 output, zoomFactor 1.2, intensity 1.0,
duration 5) the derivation gives `scale_factor = 1.5`, scaled canvas
1500x1500, `max_movement_x = 700`, `x(0) = 0` and `x(5) = 700`. -/
theorem parallax_pan_linear (imgWidth imgHeight outputWidth outputHeight : ℕ)
    (zoomFactor intensity duration t : ℚ) :
    parallaxCropX "right" imgWidth imgHeight outputWidth outputHeight zoomFactor intensity duration t
        = t / duration * (maxMovementX imgWidth outputWidth zoomFactor intensity : ℤ) ∧
    parallaxCropY "right" imgWidth imgHeight outputWidth outputHeight zoomFactor intensity duration t
        = (((scaledHeight imgHeight zoomFactor : ℤ) : ℚ) - outputHeight) / 2 ∧
    parallaxCropX "left" imgWidth imgHeight outputWidth outputHeight zoomFactor intensity duration t
        = ((maxMovementX imgWidth outputWidth zoomFactor intensity : ℤ) : ℚ)
            - t / duration * (maxMovementX imgWidth outputWidth zoomFactor intensity : ℤ) ∧
    parallaxCropY "left" imgWidth imgHeight outputWidth outputHeight zoomFactor intensity duration t
        = (((scaledHeight imgHeight zoomFactor : ℤ) : ℚ) - outputHeight) / 2 ∧
    scaleFactor (6/5) = 3/2 ∧
    scaledWidth 1000 (6/5) = 1500 ∧ scaledHeight 1000 (6/5) = 1500 ∧
    maxMovementX 1000 800 (6/5) 1 = 700 ∧
    parallaxCropX "right" 1000 1000 800 800 (6/5) 1 5 0 = 0 ∧
    parallaxCropX "right" 1000 1000 800 800 (6/5) 1 5 5 = 700 := by
  have hsf : scaleFactor (6/5) = 3/2 := by rw [scaleFactor, max_eq_right (by norm_num)]
  have hsw : scaledWidth 1000 (6/5) = 1500 := by
    rw [scaledWidth, hsf]; norm_num [ratTrunc]
  have hsh : scaledHeight 1000 (6/5) = 1500 := by
    rw [scaledHeight, hsf]; norm_num [ratTrunc]
  have hmm : maxMovementX 1000 800 (6/5) 1 = 700 := by
    rw [maxMovementX, hsw]; norm_num [ratTrunc]
  refine ⟨rfl, rfl, rfl, rfl, hsf, hsw, hsh, hmm, ?_, ?_⟩
  · rw [parallaxCropX, if_pos rfl, hmm]; norm_num
  · rw [parallaxCropX, if_pos rfl, hmm]; norm_num

/-- An accepted merge request normalizes to snake_case keys, so feeding
the normalized set back into the validator misses the camelCase `videoUrl`
key and fails the required-fields check. -/
theorem mergeRevalidationFails (input p : List (String × JVal))
    (h : validateMergeInputs input = .ok p) :
    validateMergeInputs p = .error "Both videoUrl and audioUrl are required for merge action" := by
  rw [validateMergeInputs] at h
  repeat' split at h
  all_goals simp only [Except.error.injEq, reduceCtorEq, Except.ok.injEq] at h
  all_goals (subst h; simp +decide [validateMergeInputs, jGet, jTruthy])

/-- An accepted parallax request re-validates to the missing-`imageUrl`
error for the same key-renaming reason. -/
theorem parallaxRevalidationFails (input p : List (String × JVal))
    (h : validateParallaxInputs input = .ok p) :
    validateParallaxInputs p = .error "imageUrl is required for parallax action" := by
  rw [validateParallaxInputs] at h
  repeat' split at h
  all_goals simp only [Except.error.injEq, reduceCtorEq, Except.ok.injEq] at h
  all_goals (subst h; simp +decide [validateParallaxInputs, jGet, jGetD, jTruthy])

/-- An accepted overlay request re-validates to the missing-`backgroundUrl`
error for the same key-renaming reason. -/
theorem overlayRevalidationFails (input p : List (String × JVal))
    (h : validateOverlayPipInputs input = .ok p) :
    validateOverlayPipInputs p
      = .error "backgroundUrl is required for overlay_pip action" := by
  rw [validateOverlayPipInputs] at h
  repeat' split at h
  all_goals simp only [Except.error.injEq, reduceCtorEq, Except.ok.injEq] at h
  all_goals (subst h; simp +decide [validateOverlayPipInputs, jGet, jGetD, jTruthy])

/-- Re-validating a validated concat segment is the identity. -/
theorem segItemIdem (i : ℕ) (item v : JVal) (h : validateSegmentItem i item = .ok v) :
    validateSegmentItem i v = .ok v := by
  cases item with
  | vdict entries =>
    rw [validateSegmentItem] at h
    repeat' split at h
    all_goals simp only [Except.error.injEq, reduceCtorEq, Except.ok.injEq] at h
    all_goals subst h
    all_goals simp +decide [validateSegmentItem, jGet, jGetD, pyFloat, *]
  | vnone => simp [validateSegmentItem] at h
  | vstr s => simp [validateSegmentItem] at h
  | vnum q => simp [validateSegmentItem] at h
  | vlist items => simp [validateSegmentItem] at h

/-- The segment loop preserves the number of segments. -/
theorem segListLength : ∀ (xs : List JVal) (i : ℕ) (ys : List JVal),
    validateSegmentsList i xs = .ok ys → ys.length = xs.length := by
  intro xs
  induction xs with
  | nil =>
    intro i ys h
    rw [validateSegmentsList] at h
    simp only [Except.ok.injEq] at h
    subst h
    rfl
  | cons x rest ih =>
    intro i ys h
    rw [validateSegmentsList] at h
    cases hitem : validateSegmentItem i x with
    | error m => rw [hitem] at h; simp at h
    | ok v =>
      rw [hitem] at h
      cases hrest : validateSegmentsList (i + 1) rest with
      | error m => rw [hrest] at h; simp at h
      | ok vs =>
        rw [hrest] at h
        simp only [Except.ok.injEq] at h
        subst h
        simp [ih (i + 1) vs hrest]

/-- Re-running the segment loop on its own output is the identity. -/
theorem segListIdem : ∀ (xs : List JVal) (i : ℕ) (ys : List JVal),
    validateSegmentsList i xs = .ok ys → validateSegmentsList i ys = .ok ys := by
  intro xs
  induction xs with
  | nil =>
    intro i ys h
    rw [validateSegmentsList] at h
    simp only [Except.ok.injEq] at h
    subst h
    rfl
  | cons x rest ih =>
    intro i ys h
    rw [validateSegmentsList] at h
    cases hitem : validateSegmentItem i x with
    | error m => rw [hitem] at h; simp at h
    | ok v =>
      rw [hitem] at h
      cases hrest : validateSegmentsList (i + 1) rest with
      | error m => rw [hrest] at h; simp at h
      | ok vs =>
        rw [hrest] at h
        simp only [Except.ok.injEq] at h
        subst h
        rw [validateSegmentsList, segItemIdem i x v hitem, ih (i + 1) vs hrest]

/-- Inversion on an accepted concat request: the normalized set has
exactly the `segments`/`width`/`height` shape, and the checks that the
validator performed hold of it. -/
theorem concatOkInversion (input p : List (String × JVal))
    (h : validateConcatInputs input = .ok p) :
    ∃ (segs vsegs : List JVal) (w hgt : ℤ),
      p = [("segments", JVal.vlist vsegs),
           ("width", JVal.vnum (w : ℚ)), ("height", JVal.vnum (hgt : ℚ))] ∧
      validateSegmentsList 0 segs = .ok vsegs ∧
      ¬(segs.length = 0) ∧ ¬(segs.length > 50) ∧
      ¬(w < 480 ∨ w > 4096 ∨ hgt < 320 ∨ hgt > 4096) := by
  rw [validateConcatInputs] at h
  repeat' split at h
  all_goals simp only [Except.error.injEq, reduceCtorEq, Except.ok.injEq] at h
  subst h
  exact ⟨_, _, _, _, rfl, by assumption, by assumption, by assumption, by assumption⟩

/-- Re-validating the output of the concat validator succeeds and returns
it unchanged. -/
theorem concatRevalidationOk (input p : List (String × JVal))
    (h : validateConcatInputs input = .ok p) :
    validateConcatInputs p = .ok p := by
  obtain ⟨segs, vsegs, w, hgt, hp, hsegs, hn0, hn50, hrange⟩ := concatOkInversion input p h
  subst hp
  have hlen := segListLength segs 0 vsegs hsegs
  have hidem := segListIdem segs 0 vsegs hsegs
  have hne : vsegs.isEmpty = false := by
    cases vsegs with
    | nil => exact absurd hlen.symm (by simpa using hn0)
    | cons a l => rfl
  have h0 : ¬(vsegs.length = 0) := by rw [hlen]; exact hn0
  have h50 : ¬(vsegs.length > 50) := by rw [hlen]; exact hn50
  rw [validateConcatInputs]
  simp +decide [jGet, jGetD, jTruthy, pyInt, ratTrunc_intCast, hne, hidem, h0, h50, hrange]

/-- C5 counterexample: the merge validator accepts
`{videoUrl: ..., audioUrl: ...}` and returns snake_case keys
(`video_url`, ...); feeding that normalized set back into the same
validator does not succeed - it returns the required-fields error, so
validation is not idempotent as claimed. -/
theorem validator_idempotence_counterexample :
    validateMergeInputs
        [("videoUrl", JVal.vstr "http://v.mp4"), ("audioUrl", JVal.vstr "http://a.mp3")]
      = .ok [("video_url", JVal.vstr "http://v.mp4"),
             ("audio_url", JVal.vstr "http://a.mp3"),
             ("video_volume", JVal.vnum 1), ("audio_volume", JVal.vnum 1)] ∧
    validateMergeInputs
        [("video_url", JVal.vstr "http://v.mp4"),
         ("audio_url", JVal.vstr "http://a.mp3"),
         ("video_volume", JVal.vnum 1), ("audio_volume", JVal.vnum 1)]
      = .error "Both videoUrl and audioUrl are required for merge action" := by
  constructor <;> rfl

/-- C5 amended: re-validation of the normalized output of a validator is
idempotent only for the concat validator (whose normalized keys coincide
with the request keys); for merge, parallax and overlay the normalized
keys are snake_case while the validators read camelCase keys, so
re-validation always fails with the corresponding required-field error. -/
theorem validator_idempotence_amended :
    (∀ input p, validateConcatInputs input = .ok p → validateConcatInputs p = .ok p) ∧
    (∀ input p, validateMergeInputs input = .ok p →
        validateMergeInputs p
          = .error "Both videoUrl and audioUrl are required for merge action") ∧
    (∀ input p, validateParallaxInputs input = .ok p →
        validateParallaxInputs p = .error "imageUrl is required for parallax action") ∧
    (∀ input p, validateOverlayPipInputs input = .ok p →
        validateOverlayPipInputs p
          = .error "backgroundUrl is required for overlay_pip action") :=
  ⟨concatRevalidationOk, mergeRevalidationFails,
   parallaxRevalidationFails, overlayRevalidationFails⟩

/-- Witness for C5 amended: a concrete accepted request per validator,
with concat re-validation succeeding identically and merge/overlay
re-validation failing. -/
theorem validator_idempotence_amended_witness :
    validateConcatInputs
        [("segments", JVal.vlist [JVal.vdict [("url", JVal.vstr "http://s.mp4")]])]
      = .ok [("segments", JVal.vlist
                [JVal.vdict [("url", JVal.vstr "http://s.mp4"),
                             ("trim_start", JVal.vnum 0), ("trim_end", JVal.vnone)]]),
             ("width", JVal.vnum 1920), ("height", JVal.vnum 1080)] ∧
    validateConcatInputs
        [("segments", JVal.vlist
            [JVal.vdict [("url", JVal.vstr "http://s.mp4"),
                         ("trim_start", JVal.vnum 0), ("trim_end", JVal.vnone)]]),
         ("width", JVal.vnum 1920), ("height", JVal.vnum 1080)]
      = .ok [("segments", JVal.vlist
                [JVal.vdict [("url", JVal.vstr "http://s.mp4"),
                             ("trim_start", JVal.vnum 0), ("trim_end", JVal.vnone)]]),
             ("width", JVal.vnum 1920), ("height", JVal.vnum 1080)] ∧
    validateMergeInputs
        [("video_url", JVal.vstr "http://v.mp4"),
         ("audio_url", JVal.vstr "http://a.mp3"),
         ("video_volume", JVal.vnum 1), ("audio_volume", JVal.vnum 1)]
      = .error "Both videoUrl and audioUrl are required for merge action" ∧
    validateOverlayPipInputs
        [("background_url", JVal.vstr "http://b.mp4"),
         ("overlay_url", JVal.vstr "http://o.mp4"),
         ("position", JVal.vstr "bottom_right"),
         ("size", JVal.vnum 200), ("margin", JVal.vnum 20),
         ("border_width", JVal.vnum 3),
         ("border_color", JVal.vstr "#ffffff")]
      = .error "backgroundUrl is required for overlay_pip action" :=
  ⟨by rfl,
   validator_idempotence_amended.1
     [("segments", JVal.vlist [JVal.vdict [("url", JVal.vstr "http://s.mp4")]])]
     _ (by rfl),
   validator_idempotence_amended.2.1
     [("videoUrl", JVal.vstr "http://v.mp4"), ("audioUrl", JVal.vstr "http://a.mp3")]
     _ (by rfl),
   validator_idempotence_amended.2.2.2
     [("backgroundUrl", JVal.vstr "http://b.mp4"), ("overlayUrl", JVal.vstr "http://o.mp4")]
     _ (by rfl)⟩

/-- C2 counterexample: requests with action `"concat"` or `"overlay"`
(carrying valid action-specific fields) are answered by the top-level
handler with the unknown-action error, although full implementations of
both operations exist in src/concat.py and src/overlay.py. -/
theorem handler_dispatch_counterexample :
    handlerRun ratStr (fun bs => toString bs.length) [1] [1]
        [("input", JVal.vdict [("action", JVal.vstr "concat"),
            ("segments", JVal.vlist [JVal.vdict [("url", JVal.vstr "http://s.mp4")]])])]
      = .failure "Unknown action: concat. Supported actions: \x27merge\x27, \x27parallax\x27" ∧
    handlerRun ratStr (fun bs => toString bs.length) [1] [1]
        [("input", JVal.vdict [("action", JVal.vstr "overlay"),
            ("backgroundUrl", JVal.vstr "http://b.mp4"),
            ("overlayUrl", JVal.vstr "http://o.mp4")])]
      = .failure "Unknown action: overlay. Supported actions: \x27merge\x27, \x27parallax\x27" := by
  constructor <;> rfl

/-- C2 amended: the top-level handler dispatches only `"merge"` and
`"parallax"`.  For those two actions, valid action-specific fields (and a
non-empty processing result for merge) produce the success response
`{output: {video_data, content_type, size_bytes, action, ...}}`; the
action values `"concat"` and `"overlay"` are always answered with the
unknown-action error. -/
theorem handler_dispatch_amended (fmt : ℚ → String) (b64 : List ℕ → String)
    (mergeBytes parallaxBytes : List ℕ) (inputData : List (String × JVal)) :
    (jGetD inputData "action" (.vstr "merge") = .vstr "concat" →
        handlerRun fmt b64 mergeBytes parallaxBytes [("input", .vdict inputData)]
          = .failure
              "Unknown action: concat. Supported actions: \x27merge\x27, \x27parallax\x27") ∧
    (jGetD inputData "action" (.vstr "merge") = .vstr "overlay" →
        handlerRun fmt b64 mergeBytes parallaxBytes [("input", .vdict inputData)]
          = .failure
              "Unknown action: overlay. Supported actions: \x27merge\x27, \x27parallax\x27") ∧
    (∀ (u a : String) (vv av : ℚ),
        jGetD inputData "action" (.vstr "merge") = .vstr "merge" →
        jGet inputData "videoUrl" = .vstr u → u ≠ "" →
        jGet inputData "audioUrl" = .vstr a → a ≠ "" →
        jGetD inputData "videoVolume" (.vnum 1) = .vnum vv → 0 ≤ vv → vv ≤ 2 →
        jGetD inputData "audioVolume" (.vnum 1) = .vnum av → 0 ≤ av → av ≤ 2 →
        mergeBytes ≠ [] →
        handlerRun fmt b64 mergeBytes parallaxBytes [("input", .vdict inputData)]
          = .output [("video_data", .vstr (b64 mergeBytes)),
                     ("content_type", .vstr "video/mp4"),
                     ("size_bytes", .vnum (mergeBytes.length : ℚ)),
                     ("action", .vstr "merge")]) ∧
    (∀ (iu : String) (d : ℚ) (w hgt : ℤ),
        jGetD inputData "action" (.vstr "merge") = .vstr "parallax" →
        jGet inputData "imageUrl" = .vstr iu → iu ≠ "" →
        jGetD inputData "duration" (.vnum 10) = .vnum d → 0 < d → d ≤ 60 →
        jGetD inputData "width" (.vnum 1920) = .vnum (w : ℚ) → 480 ≤ w → w ≤ 4096 →
        jGetD inputData "height" (.vnum 1080) = .vnum (hgt : ℚ) → 320 ≤ hgt → hgt ≤ 4096 →
        handlerRun fmt b64 mergeBytes parallaxBytes [("input", .vdict inputData)]
          = .output [("video_data", .vstr (b64 parallaxBytes)),
                     ("content_type", .vstr "video/mp4"),
                     ("size_bytes", .vnum (parallaxBytes.length : ℚ)),
                     ("action", .vstr "parallax"),
                     ("duration", .vnum d),
                     ("resolution", .vstr (toString w ++ "x" ++ toString hgt))]) := by
  refine ⟨?_, ?_, ?_, ?_⟩
  · intro h
    simp +decide [handlerRun, jGetD, jEqStr, pyStrOfJVal, h]
  · intro h
    simp +decide [handlerRun, jGetD, jEqStr, pyStrOfJVal, h]
  · intro u a vv av hact hvu hu hau ha hvv hvv0 hvv2 hav hav0 hav2 hmb
    have hvol : ¬(vv < 0 ∨ vv > 2 ∨ av < 0 ∨ av > 2) := by
      push_neg
      exact ⟨hvv0, hvv2, hav0, hav2⟩
    have hlen : ¬(mergeBytes.length = 0) := by
      simpa [List.length_eq_zero] using hmb
    simp +decide [handlerRun, jGetD, jEqStr, jTruthy, isUrlParseable, pyFloat,
      hact, hvu, hu, hau, ha, hvv, hav, hvol, hlen]
  · intro iu d w hgt hact hiu hu hd hd0 hd60 hw hw0 hw1 hh hh0 hh1
    have hdur : ¬(d ≤ 0 ∨ d > 60) := by
      push_neg
      exact ⟨hd0, hd60⟩
    have hres : ¬(w < 480 ∨ w > 4096 ∨ hgt < 320 ∨ hgt > 4096) := by
      push_neg
      exact ⟨hw0, hw1, hh0, hh1⟩
    simp +decide [handlerRun, jGetD, jEqStr, jTruthy, isUrlParseable, pyFloat, pyInt,
      ratTrunc_intCast, hact, hiu, hu, hd, hdur, hw, hh, hres]

/-- Witness for C2 amended: concrete concat, merge and parallax events. -/
theorem handler_dispatch_amended_witness :
    handlerRun ratStr (fun bs => toString bs.length) [3, 4] [5]
        [("input", JVal.vdict [("action", JVal.vstr "concat")])]
      = .failure
          "Unknown action: concat. Supported actions: \x27merge\x27, \x27parallax\x27" ∧
    handlerRun ratStr (fun bs => toString bs.length) [3, 4] [5]
        [("input", JVal.vdict [("action", JVal.vstr "merge"),
            ("videoUrl", JVal.vstr "http://v.mp4"),
            ("audioUrl", JVal.vstr "http://a.mp3")])]
      = .output [("video_data", JVal.vstr (toString ([3, 4] : List ℕ).length)),
                 ("content_type", JVal.vstr "video/mp4"),
                 ("size_bytes", JVal.vnum (([3, 4] : List ℕ).length : ℚ)),
                 ("action", JVal.vstr "merge")] ∧
    handlerRun ratStr (fun bs => toString bs.length) [3, 4] [5]
        [("input", JVal.vdict [("action", JVal.vstr "parallax"),
            ("imageUrl", JVal.vstr "http://i.jpg"),
            ("duration", JVal.vnum 5)])]
      = .output [("video_data", JVal.vstr (toString ([5] : List ℕ).length)),
                 ("content_type", JVal.vstr "video/mp4"),
                 ("size_bytes", JVal.vnum (([5] : List ℕ).length : ℚ)),
                 ("action", JVal.vstr "parallax"),
                 ("duration", JVal.vnum 5),
                 ("resolution", JVal.vstr (toString (1920:ℤ) ++ "x" ++ toString (1080:ℤ)))] := by
  refine ⟨?_, ?_, ?_⟩
  · exact (handler_dispatch_amended ratStr (fun bs => toString bs.length) [3, 4] [5]
      [("action", JVal.vstr "concat")]).1 (by rfl)
  · exact (handler_dispatch_amended ratStr (fun bs => toString bs.length) [3, 4] [5]
      [("action", JVal.vstr "merge"), ("videoUrl", JVal.vstr "http://v.mp4"),
       ("audioUrl", JVal.vstr "http://a.mp3")]).2.2.1 "http://v.mp4" "http://a.mp3" 1 1
      (by rfl) (by rfl) (by simp) (by rfl) (by simp) (by rfl) (by norm_num) (by norm_num)
      (by rfl) (by norm_num) (by norm_num) (by simp)
  · exact (handler_dispatch_amended ratStr (fun bs => toString bs.length) [3, 4] [5]
      [("action", JVal.vstr "parallax"), ("imageUrl", JVal.vstr "http://i.jpg"),
       ("duration", JVal.vnum 5)]).2.2.2 "http://i.jpg" 5 1920 1080
      (by rfl) (by rfl) (by simp) (by rfl) (by norm_num) (by norm_num)
      (by simp +decide [jGetD]) (by norm_num) (by norm_num)
      (by simp +decide [jGetD]) (by norm_num) (by norm_num)

/-- The segment loop, started at index `j`: the i-th processed path and
the i-th per-segment command belong to the i-th input segment. -/
theorem buildSegmentJobs_spec (fmt : ℚ → String) (tempDir jobId : String) (w h : ℤ) :
    ∀ (segs : List ConcatSegment) (j i : ℕ),
      (buildSegmentJobs fmt tempDir jobId w h j segs).2.length = segs.length ∧
      (buildSegmentJobs fmt tempDir jobId w h j segs).2[i]?
          = segs[i]?.map (fun _ => segProcessedPath tempDir jobId (j + i)) ∧
      (buildSegmentJobs fmt tempDir jobId w h j segs).1[i]?
          = segs[i]?.map (fun seg => processSegmentCmd fmt
              (segInputPath tempDir jobId (j + i)) (segProcessedPath tempDir jobId (j + i))
              seg.trimStart seg.trimEnd w h) := by
  intro segs
  induction segs with
  | nil => intro j i; simp [buildSegmentJobs]
  | cons s rest ih =>
    intro j i
    refine ⟨?_, ?_, ?_⟩
    · simpa [buildSegmentJobs] using (ih (j + 1) 0).1
    · cases i with
      | zero => simp [buildSegmentJobs]
      | succ i =>
        have := (ih (j + 1) i).2.1
        simpa [buildSegmentJobs, Nat.add_assoc, Nat.add_comm 1 i] using this
    · cases i with
      | zero => simp [buildSegmentJobs]
      | succ i =>
        have := (ih (j + 1) i).2.2
        simpa [buildSegmentJobs, Nat.add_assoc, Nat.add_comm 1 i] using this

/-- C8: for every valid segment list, the concat list file handed to the
final concatenation command lists the processed segment outputs in exactly
input order: there are as many lines as segments, the i-th line names the
i-th processed path, and the i-th processed output is produced from the
trim values of the i-th input segment. -/
theorem concat_list_order (fmt : ℚ → String) (tempDir jobId : String) (w h : ℤ)
    (segments : List ConcatSegment) (i : ℕ) (seg : ConcatSegment)
    (hseg : segments[i]? = some seg) :
    (buildSegmentJobs fmt tempDir jobId w h 0 segments).2.length = segments.length ∧
    (concatListLines (buildSegmentJobs fmt tempDir jobId w h 0 segments).2).length
        = segments.length ∧
    (buildSegmentJobs fmt tempDir jobId w h 0 segments).2[i]?
        = some (segProcessedPath tempDir jobId i) ∧
    (concatListLines (buildSegmentJobs fmt tempDir jobId w h 0 segments).2)[i]?
        = some ("file \x27" ++ segProcessedPath tempDir jobId i ++ "\x27") ∧
    (buildSegmentJobs fmt tempDir jobId w h 0 segments).1[i]?
        = some (processSegmentCmd fmt (segInputPath tempDir jobId i)
            (segProcessedPath tempDir jobId i) seg.trimStart seg.trimEnd w h) := by
  obtain ⟨hlen, hpath, hcmd⟩ := buildSegmentJobs_spec fmt tempDir jobId w h segments 0 i
  simp only [Nat.zero_add] at hpath hcmd
  refine ⟨hlen, ?_, ?_, ?_, ?_⟩
  · simp [concatListLines, hlen]
  · rw [hpath, hseg]; rfl
  · simp only [concatListLines, List.getElem?_map, hpath, hseg]; rfl
  · rw [hcmd, hseg]; rfl

/-- Witness for C8 on a two-segment list (the second segment trimmed to
5..15), at index 1. -/
theorem concat_list_order_witness :
    (([⟨"http://a.mp4", 0, none⟩, ⟨"http://b.mp4", 5, some 15⟩] :
        List ConcatSegment))[1]? = some ⟨"http://b.mp4", 5, some 15⟩ ∧
    (buildSegmentJobs ratStr "/tmp/j" "job1" 1920 1080 0
        [⟨"http://a.mp4", 0, none⟩, ⟨"http://b.mp4", 5, some 15⟩]).2[1]?
      = some (segProcessedPath "/tmp/j" "job1" 1) ∧
    (concatListLines (buildSegmentJobs ratStr "/tmp/j" "job1" 1920 1080 0
        [⟨"http://a.mp4", 0, none⟩, ⟨"http://b.mp4", 5, some 15⟩]).2)[1]?
      = some ("file \x27" ++ segProcessedPath "/tmp/j" "job1" 1 ++ "\x27") ∧
    (buildSegmentJobs ratStr "/tmp/j" "job1" 1920 1080 0
        [⟨"http://a.mp4", 0, none⟩, ⟨"http://b.mp4", 5, some 15⟩]).1[1]?
      = some (processSegmentCmd ratStr (segInputPath "/tmp/j" "job1" 1)
          (segProcessedPath "/tmp/j" "job1" 1) 5 (some 15) 1920 1080) := by
  have h := concat_list_order ratStr "/tmp/j" "job1" 1920 1080
      [⟨"http://a.mp4", 0, none⟩, ⟨"http://b.mp4", 5, some 15⟩] 1
      ⟨"http://b.mp4", 5, some 15⟩ rfl
  exact ⟨rfl, h.2.2.1, h.2.2.2.1, h.2.2.2.2⟩

/-- C9: `execute_ffmpeg_pipeline` meets its execute-validate-read
contract: it returns the output bytes exactly when the engine exits zero
and the declared output exists non-empty; it fails carrying the engine
stderr text on a non-zero exit; timeout expiry is a distinct error (its message
differs from every encode-failure message); a missing or empty output
despite a zero exit is an integrity error; and in every failure case no
bytes are returned (the ok-characterization). -/
theorem execute_pipeline_contract (outcome : RunOutcome) (fileState : Option (List ℕ))
    (timeout : ℕ) :
    executeFfmpegPipeline outcome fileState timeout
        = pipelineContract outcome fileState timeout ∧
    (∀ data, executeFfmpegPipeline outcome fileState timeout = .ok data →
        outcome.exitCode = some 0 ∧ fileState = some data ∧ data ≠ []) ∧
    (∀ e, ("FFmpeg command timed out after " ++ toString timeout ++ " seconds")
        ≠ "FFmpeg processing failed: " ++ e) := by
  refine ⟨?_, ?_, ?_⟩
  · cases outcome with
    | timedOut => rfl
    | completed o e r =>
      by_cases hr : r = 0
      · subst hr
        cases fileState with
        | none => rfl
        | some data =>
          cases data with
          | nil => rfl
          | cons b bs => rfl
      · simp [executeFfmpegPipeline, pipelineContract, runFfmpegCommand, hr]
  · intro data h
    cases outcome with
    | timedOut => simp [executeFfmpegPipeline, runFfmpegCommand] at h
    | completed o e r =>
      by_cases hr : r = 0
      · subst hr
        cases fileState with
        | none => simp [executeFfmpegPipeline, runFfmpegCommand, validateOutputFile] at h
        | some d =>
          cases d with
          | nil => simp [executeFfmpegPipeline, runFfmpegCommand, validateOutputFile] at h
          | cons b bs =>
            simp [executeFfmpegPipeline, runFfmpegCommand, validateOutputFile,
              readVideoFile] at h
            refine ⟨rfl, by simp [h], by simp [← h]⟩
      · simp [executeFfmpegPipeline, runFfmpegCommand, hr] at h
  · intro e h
    have h2 := congrArg String.data h
    simp only [strDataAppend] at h2
    have h3 := congrArg (fun l => l[7]?) h2
    simp at h3

/-- Witness for C9: a completed zero-exit run over a two-byte output. -/
theorem execute_pipeline_contract_witness :
    executeFfmpegPipeline (.completed "out" "err" 0) (some [7, 8]) 120 = .ok [7, 8] ∧
    RunOutcome.exitCode (.completed "out" "err" 0) = some 0 ∧
    (some [7, 8] : Option (List ℕ)) = some [7, 8] ∧ ([7, 8] : List ℕ) ≠ [] ∧
    ("FFmpeg command timed out after " ++ toString 120 ++ " seconds")
      ≠ "FFmpeg processing failed: " ++ "err" := by
  have h := execute_pipeline_contract (.completed "out" "err" 0) (some [7, 8]) 120
  have hok : executeFfmpegPipeline (.completed "out" "err" 0) (some [7, 8]) 120
      = .ok [7, 8] := by rw [h.1]; rfl
  exact ⟨hok, (h.2.1 [7, 8] hok).1, (h.2.1 [7, 8] hok).2.1,
    (h.2.1 [7, 8] hok).2.2, h.2.2 "err"⟩

